import Mathlib

/-!
Verification development for the universal-trader market-data engine.

The TypeScript sources are shallowly embedded: JavaScript bigint becomes
Int (with bigint division modelled as truncating division), JavaScript
number fields that feed only display or price derivation become Rat,
Map objects become association lists, and functions that throw become
Except-valued functions.  Every definition mirrors one source function
and is named after it.
-/

set_option maxHeartbeats 1000000
set_option maxRecDepth 4000

-- ══════════════════════════════════════════════════════════════════
-- Association-list maps (model of the JavaScript Map object:
-- set replaces in place or appends, get scans for the key).
-- ══════════════════════════════════════════════════════════════════

def alookup {K V : Type} [DecidableEq K] (k : K) : List (K × V) → Option V
  | [] => none
  | (k', v) :: rest => if k' = k then some v else alookup k rest

def aset {K V : Type} [DecidableEq K] (k : K) (v : V) : List (K × V) → List (K × V)
  | [] => [(k, v)]
  | (k', v') :: rest => if k' = k then (k, v) :: rest else (k', v') :: aset k v rest

/-- Model of String.prototype.toLowerCase, written over the character
list (every address and symbol handled is ASCII). -/
def jsToLower (s : String) : String :=
  String.mk (s.data.map Char.toLower)

-- ══════════════════════════════════════════════════════════════════
-- Shared data model (src/watcher/src/shared/data-model/layer1.ts and
-- token.ts).  Number-typed fields that hold block coordinates are Nat,
-- bigint fields are Int, IEEE-754 price fields are modelled as Rat.
-- ══════════════════════════════════════════════════════════════════

structure TokenOnChain where
  chainId : Nat
  address : String
  symbol : String
  name : String
  decimals : Nat
  trusted : Bool
  deriving DecidableEq, Repr

structure TokenPairOnChain where
  token0 : TokenOnChain
  token1 : TokenOnChain
  key : String
  deriving DecidableEq, Repr

/-- DexVenueId from layer1.ts: the venue name and the chain it lives on. -/
structure DexVenueId where
  name : String
  chainId : Nat
  deriving DecidableEq, Repr

/-- EventMetadata from layer1.ts. -/
structure EventMetadata where
  transactionHash : String
  blockNumber : Nat
  transactionIndex : Nat
  logIndex : Nat
  blockReceivedTimestamp : Nat
  deriving DecidableEq, Repr

inductive DexProtocol
  | v2
  | v3
  | v4
  deriving DecidableEq, Repr

structure TickData where
  tick : Int
  liquidityNet : Int
  deriving DecidableEq, Repr

/-- DexPoolState from layer1.ts, flattened over the V2/V3/V4 union: the
concentrated-liquidity fields of DexV3PoolState and DexV4PoolState are
carried as the structural union carries them.  Rat models the IEEE-754
spot-price fields; the claims below never depend on their rounding. -/
structure DexPoolState where
  id : String
  address : String
  venue : DexVenueId
  protocol : DexProtocol
  pairId : String
  tokenPair : TokenPairOnChain
  feeBps : Nat
  reserve0 : Int
  reserve1 : Int
  spotPrice0to1 : Rat
  spotPrice1to0 : Rat
  latestEventMeta : Option EventMetadata
  tickSpacing : Int := 0
  tick : Int := 0
  liquidity : Int := 0
  sqrtPriceX96 : Int := 0
  ticks : Option (List TickData) := none
  deriving DecidableEq, Repr

-- ══════════════════════════════════════════════════════════════════
-- Pool events (src/unnamed/part_013): the worker-internal
-- discriminated union V2SyncEvent | V3SwapEvent | ... with the shared
-- base fields poolId, sourceAddress and meta.
-- ══════════════════════════════════════════════════════════════════

structure V2SyncEvent where
  poolId : String
  sourceAddress : String
  meta : EventMetadata
  reserve0 : Int
  reserve1 : Int
  deriving DecidableEq, Repr

structure V3SwapEvent where
  poolId : String
  sourceAddress : String
  meta : EventMetadata
  sqrtPriceX96 : Int
  tick : Int
  liquidity : Int
  amount0 : Int
  amount1 : Int
  deriving DecidableEq, Repr

structure V3MintEvent where
  poolId : String
  sourceAddress : String
  meta : EventMetadata
  tickLower : Int
  tickUpper : Int
  amount : Int
  amount0 : Int
  amount1 : Int
  deriving DecidableEq, Repr

structure V3BurnEvent where
  poolId : String
  sourceAddress : String
  meta : EventMetadata
  tickLower : Int
  tickUpper : Int
  amount : Int
  amount0 : Int
  amount1 : Int
  deriving DecidableEq, Repr

structure V4SwapEvent where
  poolId : String
  sourceAddress : String
  meta : EventMetadata
  sqrtPriceX96 : Int
  tick : Int
  liquidity : Int
  deriving DecidableEq, Repr

structure V4ModifyLiquidityEvent where
  poolId : String
  sourceAddress : String
  meta : EventMetadata
  tickLower : Int
  tickUpper : Int
  liquidityDelta : Int
  deriving DecidableEq, Repr

/-- PoolEvent from part_013: the union of the six event variants,
discriminated in the source by the protocol and name tags. -/
inductive PoolEvent
  | v2Sync (e : V2SyncEvent)
  | v3Swap (e : V3SwapEvent)
  | v3Mint (e : V3MintEvent)
  | v3Burn (e : V3BurnEvent)
  | v4Swap (e : V4SwapEvent)
  | v4ModifyLiquidity (e : V4ModifyLiquidityEvent)
  deriving DecidableEq, Repr

def PoolEvent.poolId : PoolEvent → String
  | .v2Sync e => e.poolId
  | .v3Swap e => e.poolId
  | .v3Mint e => e.poolId
  | .v3Burn e => e.poolId
  | .v4Swap e => e.poolId
  | .v4ModifyLiquidity e => e.poolId

def PoolEvent.meta : PoolEvent → EventMetadata
  | .v2Sync e => e.meta
  | .v3Swap e => e.meta
  | .v3Mint e => e.meta
  | .v3Burn e => e.meta
  | .v4Swap e => e.meta
  | .v4ModifyLiquidity e => e.meta

-- ══════════════════════════════════════════════════════════════════
-- Price oracle (src/unnamed/part_003, class PriceOracle).
-- ══════════════════════════════════════════════════════════════════

namespace PriceOracle

/-- Key format chainId:address(lowercase) used for both the prices map
and the stablecoins set. -/
def priceKey (chainId : Nat) (address : String) : String :=
  toString chainId ++ ":" ++ jsToLower address

/-- Oracle state: the prices map and the stablecoin anchor set. -/
structure State where
  prices : List (String × Rat)
  stablecoins : List String
  deriving DecidableEq, Repr

/-- Constructor of PriceOracle: every anchor is added to the
stablecoins set and seeded with price 1.0. -/
def mk (stablecoins : List (Nat × String)) : State :=
  stablecoins.foldl
    (fun st s =>
      { st with
        stablecoins := st.stablecoins ++ [priceKey s.1 s.2]
        prices := aset (priceKey s.1 s.2) (1 : Rat) st.prices })
    { prices := [], stablecoins := [] }

def getUSDPrice (st : State) (chainId : Nat) (tokenAddress : String) : Option Rat :=
  alookup (priceKey chainId tokenAddress) st.prices

/-- derivePrice: reads both prices first, then performs the two
conditional writes in source order (the second write sees the map after
the first write but uses the price read before it). -/
def derivePrice (st : State) (pool : DexPoolState) : State :=
  let key0 := priceKey pool.venue.chainId pool.tokenPair.token0.address
  let key1 := priceKey pool.venue.chainId pool.tokenPair.token1.address
  let price0 := alookup key0 st.prices
  let price1 := alookup key1 st.prices
  let prices1 :=
    match price0 with
    | some p0 => if pool.spotPrice0to1 > 0 then aset key1 (p0 / pool.spotPrice0to1) st.prices else st.prices
    | none => st.prices
  let prices2 :=
    match price1 with
    | some p1 => if pool.spotPrice1to0 > 0 then aset key0 (p1 / pool.spotPrice1to0) prices1 else prices1
    | none => prices1
  { st with prices := prices2 }

def onPoolUpdated (st : State) (pools : List DexPoolState) : State :=
  pools.foldl derivePrice st

end PriceOracle

-- ══════════════════════════════════════════════════════════════════
-- Pool-states manager (src/unnamed/part_008, class PoolStatesManager,
-- the layer1-based version cited by the claims).
-- ══════════════════════════════════════════════════════════════════

namespace PoolStatesManager

/-- Manager state: the pool map and the latest-event-metadata map. -/
structure State where
  poolStates : List (String × DexPoolState)
  latestPoolEventMeta : List (String × EventMetadata)
  deriving DecidableEq, Repr

/-- isEventNewer: strict lexicographic comparison on
(blockNumber, transactionIndex, logIndex); a missing last event counts
as older than anything. -/
def isEventNewer (newEvent : EventMetadata) (lastEvent : Option EventMetadata) : Bool :=
  match lastEvent with
  | none => true
  | some last =>
    if newEvent.blockNumber ≠ last.blockNumber then
      decide (newEvent.blockNumber > last.blockNumber)
    else if newEvent.transactionIndex ≠ last.transactionIndex then
      decide (newEvent.transactionIndex > last.transactionIndex)
    else
      decide (newEvent.logIndex > last.logIndex)

/-- Strict lexicographic order on event metadata: a is strictly older
than b. -/
def metaLexLt (a b : EventMetadata) : Prop :=
  a.blockNumber < b.blockNumber ∨
    (a.blockNumber = b.blockNumber ∧
      (a.transactionIndex < b.transactionIndex ∨
        (a.transactionIndex = b.transactionIndex ∧ a.logIndex < b.logIndex)))

instance (a b : EventMetadata) : Decidable (metaLexLt a b) := by
  unfold metaLexLt; infer_instance

/-- handlePoolEvent: look the pool up (introspecting unknown pools via
the dex registry, passed here as the function introspect), discard the
event unless it is strictly newer than the latest metadata recorded on
the pool, otherwise apply the registry update (passed as
updateFromEvent) and record the metadata.  Logging is dropped. -/
def handlePoolEvent
    (introspect : PoolEvent → Option DexPoolState)
    (updateFromEvent : DexPoolState → PoolEvent → DexPoolState)
    (st : State) (event : PoolEvent) : State :=
  let pool? :=
    match alookup event.poolId st.poolStates with
    | some p => some p
    | none => introspect event
  match pool? with
  | none => st
  | some pool =>
    if ¬ isEventNewer event.meta pool.latestEventMeta then st
    else
      let updatedState := updateFromEvent pool event
      { st with
        latestPoolEventMeta := aset pool.id event.meta st.latestPoolEventMeta
        poolStates := aset pool.id updatedState st.poolStates }

end PoolStatesManager

-- ══════════════════════════════════════════════════════════════════
-- Block manager (src/watcher/src/workers/watcher-evm/core/
-- block-manager.ts): the event-topic table and the log filter built
-- by listenPoolEvents.
-- ══════════════════════════════════════════════════════════════════

namespace BlockManager

/-- Topic-0 hash of an event signature.  ethers.id computes the
keccak-256 hash of the signature string; the hash is modelled
injectively by the signature itself. -/
structure TopicHash where
  sig : String
  deriving DecidableEq, Repr

def ethersId (signature : String) : TopicHash :=
  { sig := signature }

def EVENT_TOPICS_V2_SYNC : TopicHash :=
  ethersId "Sync(uint112,uint112)"

def EVENT_TOPICS_V3_SWAP : TopicHash :=
  ethersId "Swap(address,address,int256,int256,uint160,uint128,int24)"

def EVENT_TOPICS_V3_MINT : TopicHash :=
  ethersId "Mint(address,address,int24,int24,uint128,uint256,uint256)"

def EVENT_TOPICS_V3_BURN : TopicHash :=
  ethersId "Burn(address,int24,int24,uint128,uint256,uint256)"

def EVENT_TOPICS_V4_SWAP : TopicHash :=
  ethersId "Swap(bytes32,address,int128,int128,uint160,uint128,int24,uint24)"

def EVENT_TOPICS_V4_MODIFY_LIQUIDITY : TopicHash :=
  ethersId "ModifyLiquidity(bytes32,address,int24,int24,int256,int256)"

/-- Shape of an ethers.Filter as built by listenPoolEvents. -/
structure EventFilter where
  address : List String
  topics : List (List TopicHash)
  deriving DecidableEq, Repr

/-- listenPoolEvents: returns early (no filter) when there are no pool
addresses, otherwise creates the single filter over all pool addresses.
In the source the topics array lists only V2_SYNC and V3_SWAP; the
V3_MINT, V3_BURN, V4_SWAP and V4_MODIFY_LIQUIDITY entries are commented
out. -/
def listenPoolEvents (poolAddresses : List String) : Option EventFilter :=
  if poolAddresses.length = 0 then none
  else
    some
      { address := poolAddresses
        topics := [[EVENT_TOPICS_V2_SYNC, EVENT_TOPICS_V3_SWAP]] }

end BlockManager

-- ══════════════════════════════════════════════════════════════════
-- Uniswap V3 math library (src/watcher/src/workers/watcher-evm/core/
-- adapters/lib/sqrtPriceMath.ts).  bigint is Int; bigint division and
-- remainder truncate toward zero (Int.tdiv, Int.tmod); a JavaScript
-- division by zero throws while Int.tdiv totalizes it to zero, noted
-- where it can occur.  Functions that throw return Except.
-- ══════════════════════════════════════════════════════════════════

namespace SqrtPriceMath

def Q96 : Int := 2 ^ 96

def Q160 : Int := 2 ^ 160

/-- Fields of the watcher-evm PoolState interface that sqrtPriceMath.ts
reads (the optional fields it reads through the non-null assertion
operator are required here); display-only fields are omitted. -/
structure PoolState where
  id : String
  fee : Nat
  sqrtPriceX96 : Int
  tick : Int
  liquidity : Int
  initializedTicks : Option (List TickData)
  deriving DecidableEq, Repr

def mulDiv (a b denominator : Int) : Int :=
  (a * b).tdiv denominator

def mulDivRoundingUp (a b denominator : Int) : Int :=
  let product := a * b
  if product.tmod denominator = 0 then product.tdiv denominator
  else product.tdiv denominator + 1

/-- calculateVirtualReserves; with liquidity nonzero and sqrtPriceX96
zero the source throws a RangeError on division by zero where this
model returns zero. -/
def calculateVirtualReserves (sqrtPriceX96 liquidity : Int) : Int × Int :=
  if liquidity = 0 then (0, 0)
  else ((liquidity * Q96).tdiv sqrtPriceX96, (liquidity * sqrtPriceX96).tdiv Q96)

def getNextSqrtPriceFromAmount0RoundingUp
    (sqrtPriceX96 liquidity amount : Int) (add : Bool) : Except String Int :=
  if amount = 0 then .ok sqrtPriceX96
  else
    let numerator := liquidity * Q96
    if add then
      let product := amount * sqrtPriceX96
      if product.tdiv amount = sqrtPriceX96 ∧ numerator + product ≥ numerator then
        .ok (mulDivRoundingUp numerator sqrtPriceX96 (numerator + product))
      else
        .ok (numerator.tdiv (numerator.tdiv sqrtPriceX96 + amount))
    else
      let product := amount * sqrtPriceX96
      if numerator ≤ product then .error "Insufficient liquidity"
      else .ok (mulDivRoundingUp numerator sqrtPriceX96 (numerator - product))

def getNextSqrtPriceFromAmount1RoundingDown
    (sqrtPriceX96 liquidity amount : Int) (add : Bool) : Except String Int :=
  if add then
    let quotient :=
      if amount ≤ Q160 then (amount * 2 ^ 96).tdiv liquidity
      else (amount * Q96).tdiv liquidity
    .ok (sqrtPriceX96 + quotient)
  else
    let quotient :=
      if amount ≤ Q160 then mulDivRoundingUp amount Q96 liquidity
      else (amount * Q96).tdiv liquidity
    if sqrtPriceX96 ≤ quotient then .error "Insufficient liquidity"
    else .ok (sqrtPriceX96 - quotient)

def getAmount0Delta (sqrtRatioAX96 sqrtRatioBX96 liquidity : Int) (roundUp : Bool) : Int :=
  let sa := if sqrtRatioAX96 > sqrtRatioBX96 then sqrtRatioBX96 else sqrtRatioAX96
  let sb := if sqrtRatioAX96 > sqrtRatioBX96 then sqrtRatioAX96 else sqrtRatioBX96
  let numerator1 := liquidity * 2 ^ 96
  let numerator2 := sb - sa
  if roundUp then mulDivRoundingUp (mulDivRoundingUp numerator1 numerator2 sb) 1 sa
  else (mulDiv numerator1 numerator2 sb).tdiv sa

def getAmount1Delta (sqrtRatioAX96 sqrtRatioBX96 liquidity : Int) (roundUp : Bool) : Int :=
  let sa := if sqrtRatioAX96 > sqrtRatioBX96 then sqrtRatioBX96 else sqrtRatioAX96
  let sb := if sqrtRatioAX96 > sqrtRatioBX96 then sqrtRatioAX96 else sqrtRatioBX96
  let priceDelta := sb - sa
  if roundUp then mulDivRoundingUp liquidity priceDelta Q96
  else mulDiv liquidity priceDelta Q96

/-- Result record of computeSwapStep. -/
structure SwapStepResult where
  sqrtPriceNextX96 : Int
  amountIn : Int
  amountOut : Int
  deriving DecidableEq, Repr

def computeSwapStep (sqrtPriceCurrent sqrtPriceTarget liquidity amountRemaining : Int)
    (zeroForOne : Bool) : Except String SwapStepResult :=
  if zeroForOne then
    let amountInMax := getAmount0Delta sqrtPriceTarget sqrtPriceCurrent liquidity true
    if amountRemaining ≥ amountInMax then
      .ok { sqrtPriceNextX96 := sqrtPriceTarget
            amountIn := amountInMax
            amountOut := getAmount1Delta sqrtPriceTarget sqrtPriceCurrent liquidity false }
    else
      match getNextSqrtPriceFromAmount0RoundingUp sqrtPriceCurrent liquidity amountRemaining true with
      | .error e => .error e
      | .ok sqrtPriceNext =>
        .ok { sqrtPriceNextX96 := sqrtPriceNext
              amountIn := amountRemaining
              amountOut := getAmount1Delta sqrtPriceNext sqrtPriceCurrent liquidity false }
  else
    let amountInMax := getAmount1Delta sqrtPriceCurrent sqrtPriceTarget liquidity true
    if amountRemaining ≥ amountInMax then
      .ok { sqrtPriceNextX96 := sqrtPriceTarget
            amountIn := amountInMax
            amountOut := getAmount0Delta sqrtPriceCurrent sqrtPriceTarget liquidity false }
    else
      match getNextSqrtPriceFromAmount1RoundingDown sqrtPriceCurrent liquidity amountRemaining true with
      | .error e => .error e
      | .ok sqrtPriceNext =>
        .ok { sqrtPriceNextX96 := sqrtPriceNext
              amountIn := amountRemaining
              amountOut := getAmount0Delta sqrtPriceCurrent sqrtPriceNext liquidity false }

/-- getNextInitializedTick: going down, the highest initialized tick at
or below the current tick (the source scans the sorted array from the
end); going up, the lowest initialized tick strictly above it. -/
def getNextInitializedTick (ticks : List TickData) (currentTick : Int)
    (zeroForOne : Bool) : Option TickData :=
  if zeroForOne then ticks.reverse.find? (fun t => decide (t.tick ≤ currentTick))
  else ticks.find? (fun t => decide (t.tick > currentTick))

/-- Price limits local to simulateSwap (same as V3 core MIN/MAX sqrt
prices). -/
def MIN_SQRT_RATIO : Int := 4295128739 + 1

def MAX_SQRT_RATIO : Int := 1461446703485210103287273052203988822378723970342 - 1

/-- Per-step clamp of the next-tick price to the price limit, exactly
as written in the loop body of simulateSwap. -/
def sqrtPriceTargetOf (zeroForOne : Bool) (sqrtPriceLimit sqrtPriceNextTick : Int) : Int :=
  if zeroForOne then
    if sqrtPriceNextTick < sqrtPriceLimit then sqrtPriceLimit else sqrtPriceNextTick
  else
    if sqrtPriceNextTick > sqrtPriceLimit then sqrtPriceLimit else sqrtPriceNextTick

def MAX_ITERATIONS : Nat := 500

/-- Mutable locals of the while loop in simulateSwap. -/
structure LoopState where
  amountRemaining : Int
  totalAmountOut : Int
  currentSqrtPrice : Int
  currentTick : Int
  liquidity : Int
  iterations : Nat
  deriving DecidableEq, Repr

/-- While loop of simulateSwap.  tickToSqrt stands for
tickToSqrtPriceX96, which the source computes with IEEE-754 doubles;
every theorem below holds for an arbitrary such function.  A thrown
error is returned alongside the loop state so the iteration count stays
observable. -/
def swapLoop (tickToSqrt : Int → Int) (ticks : List TickData) (feePpm : Int)
    (sqrtPriceLimit : Int) (zeroForOne : Bool) (st : LoopState) :
    LoopState × Option String :=
  if h : st.amountRemaining > 0 ∧ st.currentSqrtPrice ≠ sqrtPriceLimit ∧
      st.iterations < MAX_ITERATIONS then
    let st1 : LoopState := { st with iterations := st.iterations + 1 }
    let nextTick := getNextInitializedTick ticks st1.currentTick zeroForOne
    let sqrtPriceNextTick :=
      match nextTick with
      | some t => tickToSqrt t.tick
      | none => sqrtPriceLimit
    let sqrtPriceTarget := sqrtPriceTargetOf zeroForOne sqrtPriceLimit sqrtPriceNextTick
    let amountRemainingAfterFee := (st1.amountRemaining * (1000000 - feePpm)).tdiv 1000000
    match computeSwapStep st1.currentSqrtPrice sqrtPriceTarget st1.liquidity
        amountRemainingAfterFee zeroForOne with
    | .error e => (st1, some e)
    | .ok step =>
      let amountInConsumed := step.amountIn
      let feeAmount :=
        (amountInConsumed * feePpm + (1000000 - feePpm - 1)).tdiv (1000000 - feePpm)
      let remaining0 := st1.amountRemaining - (amountInConsumed + feeAmount)
      let remaining1 := if remaining0 < 0 then 0 else remaining0
      let st2 : LoopState :=
        { st1 with
          amountRemaining := remaining1
          totalAmountOut := st1.totalAmountOut + step.amountOut
          currentSqrtPrice := step.sqrtPriceNextX96 }
      match nextTick with
      | some nt =>
        if step.sqrtPriceNextX96 = sqrtPriceTarget ∧ sqrtPriceTarget = sqrtPriceNextTick then
          let liquidity1 :=
            if zeroForOne then st2.liquidity - nt.liquidityNet
            else st2.liquidity + nt.liquidityNet
          if liquidity1 ≤ 0 then ({ st2 with liquidity := liquidity1 }, none)
          else
            let st3 : LoopState :=
              { st2 with
                liquidity := liquidity1
                currentTick := if zeroForOne then nt.tick - 1 else nt.tick }
            swapLoop tickToSqrt ticks feePpm sqrtPriceLimit zeroForOne st3
        else (st2, none)
      | none => (st2, none)
  else (st, none)
termination_by MAX_ITERATIONS - st.iterations
decreasing_by
  simp_wf
  omega

/-- Single-tick fallback simulation. -/
def simulateSwapSingleTick (poolState : PoolState) (amountIn : Int)
    (zeroForOne : Bool) : Except String Int :=
  let sqrtPriceX96 := poolState.sqrtPriceX96
  let liquidity := poolState.liquidity
  let feePpm : Int := poolState.fee
  let amountInAfterFee := (amountIn * (1000000 - feePpm)).tdiv 1000000
  if zeroForOne then
    match getNextSqrtPriceFromAmount0RoundingUp sqrtPriceX96 liquidity amountInAfterFee true with
    | .error e => .error e
    | .ok sqrtPriceX96Next => .ok (getAmount1Delta sqrtPriceX96Next sqrtPriceX96 liquidity false)
  else
    match getNextSqrtPriceFromAmount1RoundingDown sqrtPriceX96 liquidity amountInAfterFee true with
    | .error e => .error e
    | .ok sqrtPriceX96Next => .ok (getAmount0Delta sqrtPriceX96 sqrtPriceX96Next liquidity false)

/-- Multi-tick V3 swap simulation (the exported simulateSwap of
sqrtPriceMath.ts), parameterised by the float-based tickToSqrtPriceX96. -/
def simulateSwap (tickToSqrt : Int → Int) (poolState : PoolState) (amountIn : Int)
    (zeroForOne : Bool) : Except String Int :=
  if amountIn ≤ 0 then .error "Invalid trade amount"
  else if poolState.liquidity ≤ 0 then .error "Insufficient liquidity"
  else
    match poolState.initializedTicks with
    | none => simulateSwapSingleTick poolState amountIn zeroForOne
    | some ticks =>
      if ticks.isEmpty then simulateSwapSingleTick poolState amountIn zeroForOne
      else
        let feePpm : Int := poolState.fee
        let sqrtPriceLimit := if zeroForOne then MIN_SQRT_RATIO else MAX_SQRT_RATIO
        let init : LoopState :=
          { amountRemaining := amountIn
            totalAmountOut := 0
            currentSqrtPrice := poolState.sqrtPriceX96
            currentTick := poolState.tick
            liquidity := poolState.liquidity
            iterations := 0 }
        match swapLoop tickToSqrt ticks feePpm sqrtPriceLimit zeroForOne init with
        | (_, some e) => .error e
        | (fin, none) =>
          if fin.totalAmountOut ≤ 0 then .error "V3 multi-tick simulation produced zero output"
          else .ok fin.totalAmountOut

/-- Number of executions of the main loop body in a run of
simulateSwap (zero when a guard fails or the single-tick fallback is
taken). -/
def simulateSwapIterations (tickToSqrt : Int → Int) (poolState : PoolState)
    (amountIn : Int) (zeroForOne : Bool) : Nat :=
  if amountIn ≤ 0 then 0
  else if poolState.liquidity ≤ 0 then 0
  else
    match poolState.initializedTicks with
    | none => 0
    | some ticks =>
      if ticks.isEmpty then 0
      else
        let feePpm : Int := poolState.fee
        let sqrtPriceLimit := if zeroForOne then MIN_SQRT_RATIO else MAX_SQRT_RATIO
        let init : LoopState :=
          { amountRemaining := amountIn
            totalAmountOut := 0
            currentSqrtPrice := poolState.sqrtPriceX96
            currentTick := poolState.tick
            liquidity := poolState.liquidity
            iterations := 0 }
        (swapLoop tickToSqrt ticks feePpm sqrtPriceLimit zeroForOne init).1.iterations

end SqrtPriceMath

-- ══════════════════════════════════════════════════════════════════
-- Uniswap V2 adapter (src/watcher/src/workers/watcher-evm/core/
-- adapters/uniswap-v2.ts).  The three throw sites of simulateSwap and
-- the four of getTradeQuote become an error enumeration; the
-- IEEE-754-based execution-price, impact and slippage fields of the
-- quote are display-only and the embedding carries the quote through
-- its amountOut.
-- ══════════════════════════════════════════════════════════════════

namespace UniswapV2

def FEE_BASIS_POINTS : Nat := 30

inductive SwapError
  | invalidTradeAmount
  | insufficientLiquidityInPool
  | tradeAmountExceedsLiquidity
  | tradeQuoteInvalidAmountOut
  deriving DecidableEq, Repr

/-- simulateSwap of the V2 adapter: guard order and formula exactly as
in the source. -/
def simulateSwap (poolState : DexPoolState) (amountIn : Int) (zeroForOne : Bool) :
    Except SwapError Int :=
  if amountIn ≤ 0 then .error .invalidTradeAmount
  else
    let reserveIn := if zeroForOne then poolState.reserve0 else poolState.reserve1
    let reserveOut := if zeroForOne then poolState.reserve1 else poolState.reserve0
    if reserveIn ≤ 0 ∨ reserveOut ≤ 0 then .error .insufficientLiquidityInPool
    else if amountIn > reserveIn then .error .tradeAmountExceedsLiquidity
    else
      let feeRateBasisPoints : Int := poolState.feeBps
      let keepRateBasisPoints : Int := 10000 - feeRateBasisPoints
      let amountInWithFee := (amountIn * keepRateBasisPoints).tdiv 10000
      let numerator := amountInWithFee * reserveOut
      let denominator := reserveIn + amountInWithFee
      .ok (numerator.tdiv denominator)

/-- getTradeQuote of the V2 adapter, embedded through the computation
of amountOut (everything after the invalid-amountOut guard only
derives display fields from amountOut). -/
def getTradeQuote (poolState : DexPoolState) (amountIn : Int) (zeroForOne : Bool) :
    Except SwapError Int :=
  if amountIn ≤ 0 then .error .invalidTradeAmount
  else
    let reserveIn := if zeroForOne then poolState.reserve0 else poolState.reserve1
    let reserveOut := if zeroForOne then poolState.reserve1 else poolState.reserve0
    if reserveIn ≤ 0 ∨ reserveOut ≤ 0 then .error .insufficientLiquidityInPool
    else if amountIn > reserveIn then .error .tradeAmountExceedsLiquidity
    else
      let feeRateBasisPoints : Int := poolState.feeBps
      let keepRateBasisPoints : Int := 10000 - feeRateBasisPoints
      let amountInWithFee := (amountIn * keepRateBasisPoints).tdiv 10000
      let numerator := amountInWithFee * reserveOut
      let denominator := reserveIn + amountInWithFee
      let amountOut := numerator.tdiv denominator
      if amountOut ≤ 0 then .error .tradeQuoteInvalidAmountOut
      else .ok amountOut

/-- updatePoolFromEvent of the V2 adapter: applies the sync event
unconditionally (there is no event-kind check; the parameter type in
the source is already V2SyncEvent).  calculateSpotPrice works in
IEEE-754 doubles in the source and is passed as a parameter. -/
def updatePoolFromEvent
    (calculateSpotPrice : Int → Int → TokenOnChain → TokenOnChain → Bool → Rat)
    (pool : DexPoolState) (event : V2SyncEvent) : DexPoolState :=
  { pool with
    reserve0 := event.reserve0
    reserve1 := event.reserve1
    latestEventMeta := some event.meta
    spotPrice0to1 :=
      calculateSpotPrice event.reserve0 event.reserve1 pool.tokenPair.token0 pool.tokenPair.token1 true
    spotPrice1to0 :=
      calculateSpotPrice event.reserve0 event.reserve1 pool.tokenPair.token0 pool.tokenPair.token1 false }

end UniswapV2

-- ══════════════════════════════════════════════════════════════════
-- Uniswap V3 adapter event handling (src/watcher/src/workers/
-- watcher-evm/core/adapters/uniswap-v3.ts, DexV3Adapter).
-- ══════════════════════════════════════════════════════════════════

namespace DexV3Adapter

/-- updatePoolFromEvent of the V3 adapter: any event that is not a V3
swap is returned unchanged (the source comment reads: only handle swap
events for state updates).  calculateSpotPrice works in IEEE-754
doubles in the source and is passed as a parameter. -/
def updatePoolFromEvent
    (calculateSpotPrice : Int → TokenOnChain → TokenOnChain → Bool → Rat)
    (pool : DexPoolState) (event : PoolEvent) : DexPoolState :=
  match event with
  | .v3Swap e =>
    let vr := SqrtPriceMath.calculateVirtualReserves e.sqrtPriceX96 e.liquidity
    { pool with
      reserve0 := vr.1
      reserve1 := vr.2
      sqrtPriceX96 := e.sqrtPriceX96
      tick := e.tick
      liquidity := e.liquidity
      latestEventMeta := some e.meta
      spotPrice0to1 := calculateSpotPrice e.sqrtPriceX96 pool.tokenPair.token0 pool.tokenPair.token1 true
      spotPrice1to0 := calculateSpotPrice e.sqrtPriceX96 pool.tokenPair.token0 pool.tokenPair.token1 false }
  | _ => pool

end DexV3Adapter

-- ══════════════════════════════════════════════════════════════════
-- Aggregator store (src/watcher/src/core/global-data-store.ts,
-- class GlobalDataStore).  The PoolState here is the shared-types
-- union; only its base fields are read by the store.  _lastUpdateAt
-- takes the wall clock and is omitted; listeners run synchronously and
-- each set call hands every listener exactly one notification carrying
-- the change type this model returns.
-- ══════════════════════════════════════════════════════════════════

namespace GlobalDataStore

structure PoolState where
  address : String
  chainId : Nat
  dexName : String
  dexType : String
  tokenPair : TokenPairOnChain
  fee : Nat
  totalLiquidityUSD : Rat
  routerAddress : String
  lastUpdatedBlock : Nat
  lastUpdatedAt : Nat
  disabled : Bool
  deriving DecidableEq, Repr

inductive PoolChangeType
  | add
  | update
  | remove
  deriving DecidableEq, Repr

structure Store where
  pools : List (String × PoolState)
  byChain : List (Nat × List String)
  byToken : List (String × List String)
  byDex : List (String × List String)
  byPair : List (String × List String)
  bySymbolPair : List (String × List String)
  updateCount : Nat
  deriving DecidableEq, Repr

def emptyStore : Store :=
  { pools := [], byChain := [], byToken := [], byDex := [], byPair := []
    bySymbolPair := [], updateCount := 0 }

/-- addToSet: fetch or create the per-key set, then Set.add. -/
def addToSet {K : Type} [DecidableEq K] (m : List (K × List String)) (k : K)
    (v : String) : List (K × List String) :=
  match alookup k m with
  | none => aset k [v] m
  | some s => aset k (if v ∈ s then s else s ++ [v]) m

/-- makePairKey: the two lowercased addresses sorted and joined with a
colon (JavaScript Array.sort uses lexicographic string order). -/
def makePairKey (a b : String) : String :=
  let a' := jsToLower a
  let b' := jsToLower b
  if a' ≤ b' then a' ++ ":" ++ b' else b' ++ ":" ++ a'

/-- Sorted symbol-pair key as built inline in indexPool. -/
def symbolPairKey (s0 s1 : String) : String :=
  if s0 ≤ s1 then s0 ++ ":" ++ s1 else s1 ++ ":" ++ s0

def indexPool (st : Store) (key : String) (pool : PoolState) : Store :=
  let t0 := jsToLower pool.tokenPair.token0.address
  let t1 := jsToLower pool.tokenPair.token1.address
  { st with
    byChain := addToSet st.byChain pool.chainId key
    byToken := addToSet (addToSet st.byToken t0 key) t1 key
    byDex := addToSet st.byDex pool.dexName key
    byPair := addToSet st.byPair (makePairKey t0 t1) key
    bySymbolPair :=
      addToSet st.bySymbolPair (symbolPairKey pool.tokenPair.token0.symbol pool.tokenPair.token1.symbol) key }

/-- set: insert or replace in the primary map, index only on insert,
and notify listeners with add or update (the returned change type). -/
def set (st : Store) (pool : PoolState) : Store × PoolChangeType :=
  let key := jsToLower pool.address
  let isNew := (alookup key st.pools).isNone
  let st1 := { st with pools := aset key pool st.pools, updateCount := st.updateCount + 1 }
  let st2 := if isNew then indexPool st1 key pool else st1
  (st2, if isNew then PoolChangeType.add else PoolChangeType.update)

/-- Total number of stored ids across all buckets of one secondary
index. -/
def indexSize {K : Type} (m : List (K × List String)) : Nat :=
  (m.map (fun kv => kv.2.length)).sum

end GlobalDataStore

-- ══════════════════════════════════════════════════════════════════
-- Static cache serialization (src/watcher/src/utils/cache-service.ts,
-- CacheService.serializeValue / deserializeValue).  JSON values are
-- the on-disk shapes; runtime values add bigint.  JSON numbers pass
-- through both directions untouched, so Rat stands in for IEEE-754.
-- ══════════════════════════════════════════════════════════════════

namespace CacheService

/-- JSON value as stored in the cache file. -/
inductive Json
  | jnull
  | jbool (b : Bool)
  | jnum (q : Rat)
  | jstr (s : String)
  | jarr (xs : List Json)
  | jobj (fields : List (String × Json))

/-- Runtime value as held in the in-memory cache map. -/
inductive Rt
  | rnull
  | rbool (b : Bool)
  | rnum (q : Rat)
  | rstr (s : String)
  | rbigint (n : Int)
  | rarr (xs : List Rt)
  | robj (fields : List (String × Rt))

/-- Decimal digits of a natural number, least significant first,
written with structural fuel so the kernel can evaluate it (the fuel
argument is always at least the number itself). -/
def natToDigitsRevAux : Nat → Nat → List Nat
  | 0, _ => []
  | fuel + 1, n => if n = 0 then [] else n % 10 :: natToDigitsRevAux fuel (n / 10)

def natToDigitsRev (n : Nat) : List Nat :=
  natToDigitsRevAux n n

def digitToChar (d : Nat) : Char :=
  Char.ofNat (48 + d)

def charToDigit (c : Char) : Option Nat :=
  if 48 ≤ c.toNat ∧ c.toNat ≤ 57 then some (c.toNat - 48) else none

/-- Decimal rendering of a natural number (toString on a bigint). -/
def natToString (n : Nat) : String :=
  if n = 0 then "0" else String.mk ((natToDigitsRev n).reverse.map digitToChar)

/-- toString of a JavaScript bigint. -/
def bigintToString (n : Int) : String :=
  if n < 0 then "-" ++ natToString n.natAbs else natToString n.natAbs

def parseDigitsStep (acc : Option Nat) (c : Char) : Option Nat :=
  match acc, charToDigit c with
  | some a, some d => some (a * 10 + d)
  | _, _ => none

def parseDigits (cs : List Char) : Option Nat :=
  cs.foldl parseDigitsStep (some 0)

/-- StringToBigInt as invoked by BigInt(value.value), over the
character list: optional sign, then decimal digits; the empty string
converts to zero; a bare sign or a non-digit fails.  Whitespace
trimming and radix prefixes never occur in cache files and are not
modelled. -/
def parseBigIntChars : List Char → Option Int
  | [] => some 0
  | c :: rest =>
    if c = '-' then
      if rest = [] then none else (parseDigits rest).map (fun nn => -(nn : Int))
    else if c = '+' then
      if rest = [] then none else (parseDigits rest).map (fun nn => (nn : Int))
    else (parseDigits (c :: rest)).map (fun nn => (nn : Int))

def parseBigInt (s : String) : Option Int :=
  parseBigIntChars s.data

mutual

/-- serializeValue: bigint becomes the marker object, arrays and plain
objects recurse, primitives pass through. -/
def serializeValue : Rt → Json
  | .rbigint n => .jobj [("__type__", .jstr "bigint"), ("value", .jstr (bigintToString n))]
  | .rarr xs => .jarr (serializeList xs)
  | .robj fields => .jobj (serializeFields fields)
  | .rnull => .jnull
  | .rbool b => .jbool b
  | .rnum q => .jnum q
  | .rstr s => .jstr s

def serializeList : List Rt → List Json
  | [] => []
  | x :: xs => serializeValue x :: serializeList xs

def serializeFields : List (String × Rt) → List (String × Json)
  | [] => []
  | (k, v) :: rest => (k, serializeValue v) :: serializeFields rest

end

/-- Check value.__type__ === (the string bigint) on a looked-up
property. -/
def isBigintTag : Option Json → Bool
  | some (.jstr s) => s == "bigint"
  | _ => false

mutual

/-- deserializeValue: an object whose __type__ property is the string
bigint is converted with BigInt(value.value) (only the string case of
that coercion is modelled, the only case serializeValue ever writes;
the other coercions also fail or never arise in cache files); arrays
and plain objects recurse; primitives pass through. -/
def deserializeValue : Json → Except String Rt
  | .jobj fields =>
    if isBigintTag (alookup "__type__" fields) then
      match alookup "value" fields with
      | some (.jstr s) =>
        match parseBigInt s with
        | some n => .ok (.rbigint n)
        | none => .error "SyntaxError: cannot convert value to a BigInt"
      | _ => .error "TypeError: cannot convert value to a BigInt"
    else
      match deserializeFields fields with
      | .ok fs => .ok (.robj fs)
      | .error e => .error e
  | .jarr xs =>
    match deserializeList xs with
    | .ok ys => .ok (.rarr ys)
    | .error e => .error e
  | .jnull => .ok .rnull
  | .jbool b => .ok (.rbool b)
  | .jnum q => .ok (.rnum q)
  | .jstr s => .ok (.rstr s)

def deserializeList : List Json → Except String (List Rt)
  | [] => .ok []
  | x :: xs =>
    match deserializeValue x, deserializeList xs with
    | .ok y, .ok ys => .ok (y :: ys)
    | .error e, _ => .error e
    | _, .error e => .error e

def deserializeFields : List (String × Json) → Except String (List (String × Rt))
  | [] => .ok []
  | (k, v) :: rest =>
    match deserializeValue v, deserializeFields rest with
    | .ok w, .ok ws => .ok ((k, w) :: ws)
    | .error e, _ => .error e
    | _, .error e => .error e

end

/-- Well-formed stored values: every bigint marker object in the tree
is exactly the two-field encoding holding the canonical decimal string
of some integer, and no other object carries a bigint __type__ tag. -/
inductive Storable : Json → Prop
  | jnull : Storable .jnull
  | jbool (b : Bool) : Storable (.jbool b)
  | jnum (q : Rat) : Storable (.jnum q)
  | jstr (s : String) : Storable (.jstr s)
  | jarr (xs : List Json) (h : ∀ x ∈ xs, Storable x) : Storable (.jarr xs)
  | jobjMarker (n : Int) :
      Storable (.jobj [("__type__", .jstr "bigint"), ("value", .jstr (bigintToString n))])
  | jobj (fields : List (String × Json))
      (hmark : isBigintTag (alookup "__type__" fields) = false)
      (h : ∀ kv ∈ fields, Storable kv.2) : Storable (.jobj fields)

end CacheService

-- ══════════════════════════════════════════════════════════════════
-- Concrete fixtures used by counterexamples and witnesses.
-- ══════════════════════════════════════════════════════════════════

def sampleToken0 : TokenOnChain :=
  { chainId := 1, address := "0xaaa", symbol := "WETH", name := "Wrapped Ether"
    decimals := 18, trusted := true }

def sampleToken1 : TokenOnChain :=
  { chainId := 1, address := "0xbbb", symbol := "USDC", name := "USD Coin"
    decimals := 6, trusted := true }

def samplePair : TokenPairOnChain :=
  { token0 := sampleToken0, token1 := sampleToken1, key := "WETH-USDC" }

def sampleMeta : EventMetadata :=
  { transactionHash := "0xt1", blockNumber := 100, transactionIndex := 0
    logIndex := 0, blockReceivedTimestamp := 0 }

def sampleOlderMeta : EventMetadata :=
  { transactionHash := "0xt0", blockNumber := 99, transactionIndex := 5
    logIndex := 5, blockReceivedTimestamp := 0 }

def sampleV3Pool : DexPoolState :=
  { id := "1:0xpool", address := "0xpool"
    venue := { name := "uniswap-v3", chainId := 1 }
    protocol := DexProtocol.v3, pairId := "USDC:WETH", tokenPair := samplePair
    feeBps := 3000, reserve0 := 0, reserve1 := 0
    spotPrice0to1 := 0, spotPrice1to0 := 0
    latestEventMeta := some sampleMeta
    tickSpacing := 60, tick := 0, liquidity := 1000000000000000000
    sqrtPriceX96 := 79228162514264337593543950336, ticks := some [] }

def sampleV2Pool : DexPoolState :=
  { id := "1:0xv2pool", address := "0xv2pool"
    venue := { name := "uniswap-v2", chainId := 1 }
    protocol := DexProtocol.v2, pairId := "USDC:WETH", tokenPair := samplePair
    feeBps := 30, reserve0 := 1000, reserve1 := 2000
    spotPrice0to1 := 0, spotPrice1to0 := 0
    latestEventMeta := some sampleMeta }

def v2PoolZeroReserves : DexPoolState :=
  { id := "1:0xzero", address := "0xzero"
    venue := { name := "uniswap-v2", chainId := 1 }
    protocol := DexProtocol.v2, pairId := "USDC:WETH", tokenPair := samplePair
    feeBps := 30, reserve0 := 0, reserve1 := 0
    spotPrice0to1 := 0, spotPrice1to0 := 0
    latestEventMeta := none }

def sampleSyncEvent : V2SyncEvent :=
  { poolId := "1:0xpool", sourceAddress := "0xpool", meta := sampleMeta
    reserve0 := 5, reserve1 := 7 }

/-- Pool whose token0 is the stable anchor itself, with inconsistent
spot prices (the oracle never checks consistency, and the two fields
are computed independently from IEEE-754 division in the source). -/
def anchorTouchingPool : DexPoolState :=
  { id := "1:0xap", address := "0xap"
    venue := { name := "uniswap-v2", chainId := 1 }
    protocol := DexProtocol.v2, pairId := "USDC:WETH"
    tokenPair :=
      { token0 :=
          { chainId := 1, address := "0xusdc", symbol := "USDC", name := "USD Coin"
            decimals := 6, trusted := true }
        token1 :=
          { chainId := 1, address := "0xweth", symbol := "WETH", name := "Wrapped Ether"
            decimals := 18, trusted := true }
        key := "USDC-WETH" }
    feeBps := 30, reserve0 := 1, reserve1 := 1
    spotPrice0to1 := 2, spotPrice1to0 := 1
    latestEventMeta := none }

/-- Pool on unrelated tokens, used to witness anchor preservation. -/
def anchorAvoidingPool : DexPoolState :=
  { id := "1:0xbp", address := "0xbp"
    venue := { name := "uniswap-v2", chainId := 1 }
    protocol := DexProtocol.v2, pairId := "USDC:WETH", tokenPair := samplePair
    feeBps := 30, reserve0 := 1, reserve1 := 1
    spotPrice0to1 := 2, spotPrice1to0 := 1
    latestEventMeta := none }

def samplePoolGDS : GlobalDataStore.PoolState :=
  { address := "0xPool", chainId := 1, dexName := "uniswap-v3", dexType := "uniswap-v3"
    tokenPair := samplePair, fee := 3000, totalLiquidityUSD := 0
    routerAddress := "0xr", lastUpdatedBlock := 0, lastUpdatedAt := 0, disabled := false }

/-- Cache-file value with a nested object, an array, a canonical bigint
marker and a null. -/
def sampleStoredJson : CacheService.Json :=
  CacheService.Json.jobj
    [("chainId", CacheService.Json.jnum 1),
     ("reserves",
       CacheService.Json.jarr
         [CacheService.Json.jobj
            [("__type__", CacheService.Json.jstr "bigint"),
             ("value", CacheService.Json.jstr (CacheService.bigintToString 123456789))],
          CacheService.Json.jnull])]

-- ══════════════════════════════════════════════════════════════════
-- Helper lemmas.
-- ══════════════════════════════════════════════════════════════════

theorem alookup_aset_self {K V : Type} [DecidableEq K] (k : K) (v : V) :
    ∀ m : List (K × V), alookup k (aset k v m) = some v := by
  intro m
  induction m with
  | nil => simp [aset, alookup]
  | cons kv rest ih =>
    by_cases h : kv.1 = k
    · simp [aset, alookup, h]
    · simp [aset, alookup, h, ih]

theorem alookup_aset_ne {K V : Type} [DecidableEq K] (k k' : K) (v : V)
    (h : k' ≠ k) : ∀ m : List (K × V), alookup k' (aset k v m) = alookup k' m := by
  have hkk : ¬ (k = k') := fun hh => h hh.symm
  intro m
  induction m with
  | nil => simp [aset, alookup, hkk]
  | cons kv rest ih =>
    obtain ⟨k0, v0⟩ := kv
    by_cases hk : k0 = k
    · subst hk
      simp [aset, alookup, hkk]
    · simp [aset, alookup, hk, ih]

theorem isEventNewer_iff (e : EventMetadata) (m : EventMetadata) :
    PoolStatesManager.isEventNewer e (some m) = true ↔ PoolStatesManager.metaLexLt m e := by
  unfold PoolStatesManager.isEventNewer PoolStatesManager.metaLexLt
  by_cases h1 : e.blockNumber = m.blockNumber
  · by_cases h2 : e.transactionIndex = m.transactionIndex
    · simp [h1, h2] <;> omega
    · simp [h1, h2] <;> omega
  · simp [h1] <;> omega

-- ══════════════════════════════════════════════════════════════════
-- C3: watcher log-subscription filter.
-- ══════════════════════════════════════════════════════════════════

/-- C3 counterexample: the filter created for a concrete pool list has
a single topic slot holding exactly two topic-0 hashes (V2 Sync and V3
Swap), not six: its length is 2 and the V3 Mint hash is absent. -/
theorem watcher_filter_six_topics_false :
    BlockManager.listenPoolEvents ["0xabc"] =
      some
        { address := ["0xabc"]
          topics := [[BlockManager.EVENT_TOPICS_V2_SYNC, BlockManager.EVENT_TOPICS_V3_SWAP]] } ∧
    [BlockManager.EVENT_TOPICS_V2_SYNC, BlockManager.EVENT_TOPICS_V3_SWAP].length = 2 ∧
    (2 : Nat) ≠ 6 ∧
    BlockManager.EVENT_TOPICS_V3_MINT ∉
      [BlockManager.EVENT_TOPICS_V2_SYNC, BlockManager.EVENT_TOPICS_V3_SWAP] := by
  refine ⟨rfl, rfl, by decide, ?_⟩
  decide

/-- C3 amended: the log subscription creates a single filter over the
union of all monitored pool addresses whose one topic slot carries
exactly the two signatures V2 Sync and V3 Swap (the Mint, Burn and V4
entries are commented out in the source). -/
theorem watcher_filter_two_topics (poolAddresses : List String)
    (h : poolAddresses ≠ []) :
    BlockManager.listenPoolEvents poolAddresses =
      some
        { address := poolAddresses
          topics := [[BlockManager.EVENT_TOPICS_V2_SYNC, BlockManager.EVENT_TOPICS_V3_SWAP]] } ∧
    ∀ t ∈ [BlockManager.EVENT_TOPICS_V2_SYNC, BlockManager.EVENT_TOPICS_V3_SWAP],
      t = BlockManager.ethersId "Sync(uint112,uint112)" ∨
      t = BlockManager.ethersId "Swap(address,address,int256,int256,uint160,uint128,int24)" := by
  constructor
  · have hlen : poolAddresses.length ≠ 0 := by
      intro hl
      exact h (List.length_eq_zero.mp hl)
    simp [BlockManager.listenPoolEvents, hlen]
  · intro t ht
    simp only [List.mem_cons, List.mem_singleton] at ht
    rcases ht with h1 | h1 | h1
    · exact Or.inl h1
    · exact Or.inr h1
    · cases h1

/-- C3 witness. -/
theorem watcher_filter_two_topics_witness :
    BlockManager.listenPoolEvents ["0xabc", "0xdef"] =
      some
        { address := ["0xabc", "0xdef"]
          topics := [[BlockManager.EVENT_TOPICS_V2_SYNC, BlockManager.EVENT_TOPICS_V3_SWAP]] } ∧
    ∀ t ∈ [BlockManager.EVENT_TOPICS_V2_SYNC, BlockManager.EVENT_TOPICS_V3_SWAP],
      t = BlockManager.ethersId "Sync(uint112,uint112)" ∨
      t = BlockManager.ethersId "Swap(address,address,int256,int256,uint160,uint128,int24)" :=
  watcher_filter_two_topics ["0xabc", "0xdef"] (by decide)

-- ══════════════════════════════════════════════════════════════════
-- C4: sqrt-price clamp bounds in the V3 multi-tick simulation.
-- ══════════════════════════════════════════════════════════════════

/-- C4 counterexample: in the zeroForOne direction the loop clamps the
per-step target to MIN_SQRT_RATIO = 4295128740 itself, which is below
the 4295128741 the claim asserts as the lower clamp; symmetrically the
other direction clamps to 1461446703485210103287273052203988822378723970341,
above the claimed upper clamp ...340. -/
theorem v3_swap_clamp_off_by_one :
    SqrtPriceMath.sqrtPriceTargetOf true SqrtPriceMath.MIN_SQRT_RATIO 0 = 4295128740 ∧
    (4295128740 : Int) < 4295128741 ∧
    SqrtPriceMath.sqrtPriceTargetOf false SqrtPriceMath.MAX_SQRT_RATIO
        (SqrtPriceMath.MAX_SQRT_RATIO + 5) =
      1461446703485210103287273052203988822378723970341 ∧
    (1461446703485210103287273052203988822378723970340 : Int) <
      1461446703485210103287273052203988822378723970341 := by
  refine ⟨by decide, by decide, by decide, by decide⟩

/-- C4 amended: the per-step target sqrt price, clamped with the
limits simulateSwap instantiates per direction, never goes below
MIN_SQRT_RATIO = 4295128740 when swapping zeroForOne and never above
MAX_SQRT_RATIO = 1461446703485210103287273052203988822378723970341 in
the other direction. -/
theorem v3_swap_target_clamped (sqrtPriceNextTick : Int) :
    SqrtPriceMath.MIN_SQRT_RATIO ≤
        SqrtPriceMath.sqrtPriceTargetOf true SqrtPriceMath.MIN_SQRT_RATIO sqrtPriceNextTick ∧
    SqrtPriceMath.sqrtPriceTargetOf false SqrtPriceMath.MAX_SQRT_RATIO sqrtPriceNextTick ≤
        SqrtPriceMath.MAX_SQRT_RATIO ∧
    SqrtPriceMath.MIN_SQRT_RATIO = 4295128740 ∧
    SqrtPriceMath.MAX_SQRT_RATIO = 1461446703485210103287273052203988822378723970341 := by
  refine ⟨?_, ?_, by decide, by decide⟩
  · by_cases hc : sqrtPriceNextTick < SqrtPriceMath.MIN_SQRT_RATIO
    · simp [SqrtPriceMath.sqrtPriceTargetOf, hc]
    · simp [SqrtPriceMath.sqrtPriceTargetOf, hc]
      omega
  · by_cases hc : sqrtPriceNextTick > SqrtPriceMath.MAX_SQRT_RATIO
    · simp [SqrtPriceMath.sqrtPriceTargetOf, hc]
    · simp [SqrtPriceMath.sqrtPriceTargetOf, hc]
      omega

-- ══════════════════════════════════════════════════════════════════
-- C5: adapter behaviour on mismatched event kinds.
-- ══════════════════════════════════════════════════════════════════

/-- C5 counterexample: the V3 adapter given a V2 sync event returns
successfully with the pool unchanged; no EventKindMismatch failure
exists (the embedded function is total because the source has no throw
path). -/
theorem v3_apply_event_mismatch_returns :
    DexV3Adapter.updatePoolFromEvent (fun _ _ _ _ => 0) sampleV3Pool
        (PoolEvent.v2Sync sampleSyncEvent) = sampleV3Pool := rfl

/-- C5 amended: instead of failing with EventKindMismatch, the V3
adapter returns the pool unchanged for every event that is not a V3
swap, and the V2 adapter applies the sync event it is given
unconditionally (its parameter type admits only sync events and there
is no kind check). -/
theorem adapters_ignore_mismatched_events
    (spot3 : Int → TokenOnChain → TokenOnChain → Bool → Rat)
    (spot2 : Int → Int → TokenOnChain → TokenOnChain → Bool → Rat)
    (pool : DexPoolState) (event : PoolEvent) (e2 : V2SyncEvent)
    (h : ∀ e, event ≠ PoolEvent.v3Swap e) :
    DexV3Adapter.updatePoolFromEvent spot3 pool event = pool ∧
    (UniswapV2.updatePoolFromEvent spot2 pool e2).reserve0 = e2.reserve0 ∧
    (UniswapV2.updatePoolFromEvent spot2 pool e2).reserve1 = e2.reserve1 ∧
    (UniswapV2.updatePoolFromEvent spot2 pool e2).latestEventMeta = some e2.meta := by
  refine ⟨?_, rfl, rfl, rfl⟩
  cases event with
  | v3Swap e => exact absurd rfl (h e)
  | v2Sync e => rfl
  | v3Mint e => rfl
  | v3Burn e => rfl
  | v4Swap e => rfl
  | v4ModifyLiquidity e => rfl

/-- C5 witness. -/
theorem adapters_ignore_mismatched_events_witness :
    DexV3Adapter.updatePoolFromEvent (fun _ _ _ _ => 0) sampleV2Pool
        (PoolEvent.v2Sync sampleSyncEvent) = sampleV2Pool ∧
    (UniswapV2.updatePoolFromEvent (fun _ _ _ _ _ => 0) sampleV2Pool sampleSyncEvent).reserve0 =
      sampleSyncEvent.reserve0 ∧
    (UniswapV2.updatePoolFromEvent (fun _ _ _ _ _ => 0) sampleV2Pool sampleSyncEvent).reserve1 =
      sampleSyncEvent.reserve1 ∧
    (UniswapV2.updatePoolFromEvent (fun _ _ _ _ _ => 0) sampleV2Pool sampleSyncEvent).latestEventMeta =
      some sampleSyncEvent.meta :=
  adapters_ignore_mismatched_events (fun _ _ _ _ => 0) (fun _ _ _ _ _ => 0) sampleV2Pool
    (PoolEvent.v2Sync sampleSyncEvent) sampleSyncEvent (fun e hh => PoolEvent.noConfusion hh)

-- ══════════════════════════════════════════════════════════════════
-- C2: per-pool event ordering in the pool-states manager.
-- ══════════════════════════════════════════════════════════════════

/-- Fixture: manager holding one pool whose recorded latest event is
sampleMeta. -/
def managerSampleState : PoolStatesManager.State :=
  { poolStates := [("1:0xpool", sampleV3Pool)], latestPoolEventMeta := [] }

/-- Fixture: sync event carrying metadata older than sampleMeta. -/
def outdatedSyncEvent : V2SyncEvent :=
  { poolId := "1:0xpool", sourceAddress := "0xpool", meta := sampleOlderMeta
    reserve0 := 1, reserve1 := 1 }

/-- C2: for a pool in the manager with latestEventMeta m, either an
incoming event leaves the whole manager state unchanged (it is
discarded as outdated) or its metadata is strictly newer than m in the
lexicographic order on (blockNumber, transactionIndex, logIndex);
equivalently, every event that changes the state is strictly newer.
The statement holds for every introspection function and every
registry update function the manager might be wired to. -/
theorem manager_event_ordering
    (introspect : PoolEvent → Option DexPoolState)
    (updateFromEvent : DexPoolState → PoolEvent → DexPoolState)
    (st : PoolStatesManager.State) (event : PoolEvent) (p : DexPoolState) (m : EventMetadata)
    (hp : alookup event.poolId st.poolStates = some p)
    (hm : p.latestEventMeta = some m) :
    PoolStatesManager.handlePoolEvent introspect updateFromEvent st event = st ∨
      PoolStatesManager.metaLexLt m event.meta := by
  by_cases hnew : PoolStatesManager.isEventNewer event.meta p.latestEventMeta = true
  · right
    rw [hm] at hnew
    exact (isEventNewer_iff event.meta m).mp hnew
  · left
    simp [PoolStatesManager.handlePoolEvent, hp, hnew]

/-- C2 witness. -/
theorem manager_event_ordering_witness :
    PoolStatesManager.handlePoolEvent (fun _ => none) (fun p _ => p) managerSampleState
        (PoolEvent.v2Sync outdatedSyncEvent) = managerSampleState ∨
      PoolStatesManager.metaLexLt sampleMeta (PoolEvent.v2Sync outdatedSyncEvent).meta :=
  manager_event_ordering (fun _ => none) (fun p _ => p) managerSampleState
    (PoolEvent.v2Sync outdatedSyncEvent) sampleV3Pool sampleMeta rfl rfl

-- ══════════════════════════════════════════════════════════════════
-- C8: double set through the aggregator store.
-- ══════════════════════════════════════════════════════════════════

/-- C8: setting a pool that is not yet stored and then setting the same
pool again notifies add on the first call and update on the second, and
every secondary index has the same size after the second call as after
the first (the second call does not touch the indices at all). -/
theorem aggregator_set_twice (st : GlobalDataStore.Store) (pool : GlobalDataStore.PoolState)
    (h : alookup (jsToLower pool.address) st.pools = none) :
    (GlobalDataStore.set st pool).2 = GlobalDataStore.PoolChangeType.add ∧
    (GlobalDataStore.set (GlobalDataStore.set st pool).1 pool).2 =
      GlobalDataStore.PoolChangeType.update ∧
    GlobalDataStore.indexSize (GlobalDataStore.set (GlobalDataStore.set st pool).1 pool).1.byChain =
      GlobalDataStore.indexSize (GlobalDataStore.set st pool).1.byChain ∧
    GlobalDataStore.indexSize (GlobalDataStore.set (GlobalDataStore.set st pool).1 pool).1.byToken =
      GlobalDataStore.indexSize (GlobalDataStore.set st pool).1.byToken ∧
    GlobalDataStore.indexSize (GlobalDataStore.set (GlobalDataStore.set st pool).1 pool).1.byDex =
      GlobalDataStore.indexSize (GlobalDataStore.set st pool).1.byDex ∧
    GlobalDataStore.indexSize (GlobalDataStore.set (GlobalDataStore.set st pool).1 pool).1.byPair =
      GlobalDataStore.indexSize (GlobalDataStore.set st pool).1.byPair ∧
    GlobalDataStore.indexSize (GlobalDataStore.set (GlobalDataStore.set st pool).1 pool).1.bySymbolPair =
      GlobalDataStore.indexSize (GlobalDataStore.set st pool).1.bySymbolPair := by
  have hip : ∀ (s : GlobalDataStore.Store) (k : String) (p : GlobalDataStore.PoolState),
      (GlobalDataStore.indexPool s k p).pools = s.pools := fun _ _ _ => rfl
  refine ⟨?_, ?_, ?_, ?_, ?_, ?_, ?_⟩ <;>
    simp [GlobalDataStore.set, h, hip, alookup_aset_self, apply_ite]

/-- C8 witness. -/
theorem aggregator_set_twice_witness :
    (GlobalDataStore.set GlobalDataStore.emptyStore samplePoolGDS).2 =
      GlobalDataStore.PoolChangeType.add ∧
    (GlobalDataStore.set (GlobalDataStore.set GlobalDataStore.emptyStore samplePoolGDS).1
        samplePoolGDS).2 = GlobalDataStore.PoolChangeType.update ∧
    GlobalDataStore.indexSize
        (GlobalDataStore.set (GlobalDataStore.set GlobalDataStore.emptyStore samplePoolGDS).1
            samplePoolGDS).1.byChain =
      GlobalDataStore.indexSize (GlobalDataStore.set GlobalDataStore.emptyStore samplePoolGDS).1.byChain ∧
    GlobalDataStore.indexSize
        (GlobalDataStore.set (GlobalDataStore.set GlobalDataStore.emptyStore samplePoolGDS).1
            samplePoolGDS).1.byToken =
      GlobalDataStore.indexSize (GlobalDataStore.set GlobalDataStore.emptyStore samplePoolGDS).1.byToken ∧
    GlobalDataStore.indexSize
        (GlobalDataStore.set (GlobalDataStore.set GlobalDataStore.emptyStore samplePoolGDS).1
            samplePoolGDS).1.byDex =
      GlobalDataStore.indexSize (GlobalDataStore.set GlobalDataStore.emptyStore samplePoolGDS).1.byDex ∧
    GlobalDataStore.indexSize
        (GlobalDataStore.set (GlobalDataStore.set GlobalDataStore.emptyStore samplePoolGDS).1
            samplePoolGDS).1.byPair =
      GlobalDataStore.indexSize (GlobalDataStore.set GlobalDataStore.emptyStore samplePoolGDS).1.byPair ∧
    GlobalDataStore.indexSize
        (GlobalDataStore.set (GlobalDataStore.set GlobalDataStore.emptyStore samplePoolGDS).1
            samplePoolGDS).1.bySymbolPair =
      GlobalDataStore.indexSize
        (GlobalDataStore.set GlobalDataStore.emptyStore samplePoolGDS).1.bySymbolPair :=
  aggregator_set_twice GlobalDataStore.emptyStore samplePoolGDS rfl

-- ══════════════════════════════════════════════════════════════════
-- C1: stable-coin anchor prices in the oracle.
-- ══════════════════════════════════════════════════════════════════

theorem mk_prices_anchor_aux (l : List (Nat × String)) :
    ∀ (init : PriceOracle.State) (key : String),
      (∃ s ∈ l, PriceOracle.priceKey s.1 s.2 = key) ∨ alookup key init.prices = some 1 →
      alookup key
        (l.foldl
          (fun st s =>
            { st with
              stablecoins := st.stablecoins ++ [PriceOracle.priceKey s.1 s.2]
              prices := aset (PriceOracle.priceKey s.1 s.2) (1 : Rat) st.prices })
          init).prices = some 1 := by
  induction l with
  | nil =>
    intro init key h
    rcases h with ⟨s, hs, _⟩ | h
    · cases hs
    · exact h
  | cons s l ih =>
    intro init key h
    rw [List.foldl_cons]
    apply ih
    by_cases hk : PriceOracle.priceKey s.1 s.2 = key
    · right
      rw [← hk]
      exact alookup_aset_self _ _ _
    · rcases h with ⟨s', hs', hkey⟩ | h
      · rcases List.mem_cons.mp hs' with rfl | hmem
        · exact absurd hkey hk
        · exact Or.inl ⟨s', hmem, hkey⟩
      · right
        rw [alookup_aset_ne _ _ _ (fun hh => hk hh.symm)]
        exact h

/-- Anchors seeded by the constructor hold price exactly 1. -/
theorem mk_prices_anchor (stables : List (Nat × String)) (c : Nat) (a : String)
    (hmem : (c, a) ∈ stables) :
    alookup (PriceOracle.priceKey c a) (PriceOracle.mk stables).prices = some 1 := by
  unfold PriceOracle.mk
  exact mk_prices_anchor_aux stables _ _ (Or.inl ⟨(c, a), hmem, rfl⟩)

/-- derivePrice writes only the two token keys of the pool it is
given. -/
theorem derivePrice_preserves (st : PriceOracle.State) (pool : DexPoolState) (key : String)
    (h0 : PriceOracle.priceKey pool.venue.chainId pool.tokenPair.token0.address ≠ key)
    (h1 : PriceOracle.priceKey pool.venue.chainId pool.tokenPair.token1.address ≠ key) :
    alookup key (PriceOracle.derivePrice st pool).prices = alookup key st.prices := by
  have hs0 := fun (v : Rat) (m : List (String × Rat)) =>
    alookup_aset_ne (PriceOracle.priceKey pool.venue.chainId pool.tokenPair.token0.address) key v
      (fun hh => h0 hh.symm) m
  have hs1 := fun (v : Rat) (m : List (String × Rat)) =>
    alookup_aset_ne (PriceOracle.priceKey pool.venue.chainId pool.tokenPair.token1.address) key v
      (fun hh => h1 hh.symm) m
  unfold PriceOracle.derivePrice
  dsimp only
  rcases hp0 : alookup (PriceOracle.priceKey pool.venue.chainId pool.tokenPair.token0.address)
      st.prices with _ | p0 <;>
  rcases hp1 : alookup (PriceOracle.priceKey pool.venue.chainId pool.tokenPair.token1.address)
      st.prices with _ | p1 <;>
  by_cases hc0 : pool.spotPrice0to1 > 0 <;>
  by_cases hc1 : pool.spotPrice1to0 > 0 <;>
  simp [hp0, hp1, hc0, hc1, hs0, hs1]

/-- onPoolUpdated leaves every key untouched that no updated pool
involves. -/
theorem onPoolUpdated_preserves (pools : List DexPoolState) :
    ∀ (st : PriceOracle.State) (key : String),
      (∀ p ∈ pools,
        PriceOracle.priceKey p.venue.chainId p.tokenPair.token0.address ≠ key ∧
        PriceOracle.priceKey p.venue.chainId p.tokenPair.token1.address ≠ key) →
      alookup key (PriceOracle.onPoolUpdated st pools).prices = alookup key st.prices := by
  induction pools with
  | nil => intro st key _; rfl
  | cons p pools ih =>
    intro st key h
    have hp := h p (List.mem_cons_self p pools)
    have hrest : ∀ q ∈ pools, _ ∧ _ := fun q hq => h q (List.mem_cons_of_mem p hq)
    unfold PriceOracle.onPoolUpdated at ih ⊢
    rw [List.foldl_cons, ih (PriceOracle.derivePrice st p) key hrest]
    exact derivePrice_preserves st p key hp.1 hp.2

/-- C1 counterexample: with the single anchor (1, 0xusdc) seeded at
1.0, delivering the same USDC/WETH pool twice overwrites the anchor
price to 1/2 — derivePrice never consults the stablecoins set, so
onPoolUpdated on a pool containing the anchor token can overwrite it.
All values used are dyadic, so Rat agrees exactly with the IEEE-754
arithmetic of the source here. -/
theorem oracle_anchor_not_invariant :
    PriceOracle.getUSDPrice
        (PriceOracle.onPoolUpdated (PriceOracle.mk [(1, "0xusdc")])
          [anchorTouchingPool, anchorTouchingPool])
        1 "0xusdc" = some (1 / 2) ∧ ((1 : Rat) / 2) ≠ 1 := by
  constructor
  · simp only [PriceOracle.onPoolUpdated, PriceOracle.mk, List.foldl,
      PriceOracle.getUSDPrice, PriceOracle.derivePrice, anchorTouchingPool,
      PriceOracle.priceKey, jsToLower, alookup, aset]
    norm_num [alookup, aset]
  · norm_num

/-- C1 amended: a stable-coin anchor seeded into the oracle holds
exactly 1.0 after construction, and it still holds exactly 1.0 after
any sequence of onPoolUpdated calls on pools none of which carries the
anchor key as token0 or token1 on the anchor chain; a pool that does
carry the anchor token may overwrite the anchor price. -/
theorem oracle_anchor_preserved (stables : List (Nat × String)) (c : Nat) (a : String)
    (pools : List DexPoolState)
    (hmem : (c, a) ∈ stables)
    (hav : ∀ p ∈ pools,
      PriceOracle.priceKey p.venue.chainId p.tokenPair.token0.address ≠
        PriceOracle.priceKey c a ∧
      PriceOracle.priceKey p.venue.chainId p.tokenPair.token1.address ≠
        PriceOracle.priceKey c a) :
    PriceOracle.getUSDPrice (PriceOracle.onPoolUpdated (PriceOracle.mk stables) pools) c a =
      some 1 := by
  unfold PriceOracle.getUSDPrice
  rw [onPoolUpdated_preserves pools _ _ hav]
  exact mk_prices_anchor stables c a hmem

/-- C1 witness. -/
theorem oracle_anchor_preserved_witness :
    PriceOracle.getUSDPrice
        (PriceOracle.onPoolUpdated (PriceOracle.mk [(1, "0xusdc")]) [anchorAvoidingPool])
        1 "0xusdc" = some 1 :=
  oracle_anchor_preserved [(1, "0xusdc")] 1 "0xusdc" [anchorAvoidingPool] (by decide) (by decide)

-- ══════════════════════════════════════════════════════════════════
-- C6: V2 quote/simulate error conditions.
-- ══════════════════════════════════════════════════════════════════

/-- C6 counterexample: with both reserves zero and amountIn = 0, the
claimed iff demands an InsufficientLiquidity failure (a reserve is
zero), but the code raises InvalidAmount first — the two iffs of the
claim cannot both hold at this input. -/
theorem v2_error_iff_precedence :
    UniswapV2.simulateSwap v2PoolZeroReserves 0 true =
      Except.error UniswapV2.SwapError.invalidTradeAmount ∧
    v2PoolZeroReserves.reserve0 = 0 ∧
    UniswapV2.simulateSwap v2PoolZeroReserves 0 true ≠
      Except.error UniswapV2.SwapError.insufficientLiquidityInPool ∧
    UniswapV2.simulateSwap v2PoolZeroReserves 0 true ≠
      Except.error UniswapV2.SwapError.tradeAmountExceedsLiquidity := by
  have hs : UniswapV2.simulateSwap v2PoolZeroReserves 0 true =
      Except.error UniswapV2.SwapError.invalidTradeAmount := rfl
  refine ⟨hs, rfl, ?_, ?_⟩ <;> rw [hs] <;> simp

/-- C6 amended: for a V2 pool (reserves are unsigned 112-bit, hence
nonnegative), both simulateSwap and getTradeQuote raise InvalidAmount
iff amountIn ≤ 0, and raise the InsufficientLiquidity kind (either the
zero-reserve or the amount-exceeds-reserve throw) iff amountIn > 0 and
(a reserve is 0 or amountIn > reserveIn); the InvalidAmount check runs
first, so the original unqualified second iff fails only on the
overlap. -/
theorem v2_swap_error_conditions (pool : DexPoolState) (amountIn : Int) (zeroForOne : Bool)
    (h0 : 0 ≤ pool.reserve0) (h1 : 0 ≤ pool.reserve1) :
    (UniswapV2.simulateSwap pool amountIn zeroForOne =
        Except.error UniswapV2.SwapError.invalidTradeAmount ↔ amountIn ≤ 0) ∧
    ((UniswapV2.simulateSwap pool amountIn zeroForOne =
        Except.error UniswapV2.SwapError.insufficientLiquidityInPool ∨
      UniswapV2.simulateSwap pool amountIn zeroForOne =
        Except.error UniswapV2.SwapError.tradeAmountExceedsLiquidity) ↔
      (0 < amountIn ∧
        ((if zeroForOne then pool.reserve0 else pool.reserve1) = 0 ∨
          (if zeroForOne then pool.reserve1 else pool.reserve0) = 0 ∨
          amountIn > (if zeroForOne then pool.reserve0 else pool.reserve1)))) ∧
    (UniswapV2.getTradeQuote pool amountIn zeroForOne =
        Except.error UniswapV2.SwapError.invalidTradeAmount ↔ amountIn ≤ 0) ∧
    ((UniswapV2.getTradeQuote pool amountIn zeroForOne =
        Except.error UniswapV2.SwapError.insufficientLiquidityInPool ∨
      UniswapV2.getTradeQuote pool amountIn zeroForOne =
        Except.error UniswapV2.SwapError.tradeAmountExceedsLiquidity) ↔
      (0 < amountIn ∧
        ((if zeroForOne then pool.reserve0 else pool.reserve1) = 0 ∨
          (if zeroForOne then pool.reserve1 else pool.reserve0) = 0 ∨
          amountIn > (if zeroForOne then pool.reserve0 else pool.reserve1)))) := by
  have hrin : 0 ≤ (if zeroForOne then pool.reserve0 else pool.reserve1) := by
    cases zeroForOne <;> simpa
  have hrout : 0 ≤ (if zeroForOne then pool.reserve1 else pool.reserve0) := by
    cases zeroForOne <;> simpa
  simp only [UniswapV2.simulateSwap, UniswapV2.getTradeQuote]
  set rIn := (if zeroForOne then pool.reserve0 else pool.reserve1) with hrIndef
  set rOut := (if zeroForOne then pool.reserve1 else pool.reserve0) with hrOutdef
  by_cases ha : amountIn ≤ 0
  · refine ⟨?_, ?_, ?_, ?_⟩ <;> (simp [ha] <;> omega)
  · by_cases hior : rIn ≤ 0 ∨ rOut ≤ 0
    · refine ⟨?_, ?_, ?_, ?_⟩ <;> (simp [ha, hior] <;> omega)
    · by_cases hx : amountIn > rIn
      · refine ⟨?_, ?_, ?_, ?_⟩ <;> (simp [ha, hior, hx] <;> omega)
      · refine ⟨?_, ?_, ?_, ?_⟩ <;>
          · simp only [ha, hior, hx, ite_false, if_neg, if_false, iff_false, false_or,
              or_false, not_false_eq_true]
            try split
            all_goals simp
            all_goals omega

/-- C6 witness. -/
theorem v2_swap_error_conditions_witness :
    (UniswapV2.simulateSwap sampleV2Pool 5 true =
        Except.error UniswapV2.SwapError.invalidTradeAmount ↔ (5 : Int) ≤ 0) ∧
    ((UniswapV2.simulateSwap sampleV2Pool 5 true =
        Except.error UniswapV2.SwapError.insufficientLiquidityInPool ∨
      UniswapV2.simulateSwap sampleV2Pool 5 true =
        Except.error UniswapV2.SwapError.tradeAmountExceedsLiquidity) ↔
      ((0 : Int) < 5 ∧
        ((if true then sampleV2Pool.reserve0 else sampleV2Pool.reserve1) = 0 ∨
          (if true then sampleV2Pool.reserve1 else sampleV2Pool.reserve0) = 0 ∨
          (5 : Int) > (if true then sampleV2Pool.reserve0 else sampleV2Pool.reserve1)))) ∧
    (UniswapV2.getTradeQuote sampleV2Pool 5 true =
        Except.error UniswapV2.SwapError.invalidTradeAmount ↔ (5 : Int) ≤ 0) ∧
    ((UniswapV2.getTradeQuote sampleV2Pool 5 true =
        Except.error UniswapV2.SwapError.insufficientLiquidityInPool ∨
      UniswapV2.getTradeQuote sampleV2Pool 5 true =
        Except.error UniswapV2.SwapError.tradeAmountExceedsLiquidity) ↔
      ((0 : Int) < 5 ∧
        ((if true then sampleV2Pool.reserve0 else sampleV2Pool.reserve1) = 0 ∨
          (if true then sampleV2Pool.reserve1 else sampleV2Pool.reserve0) = 0 ∨
          (5 : Int) > (if true then sampleV2Pool.reserve0 else sampleV2Pool.reserve1)))) :=
  v2_swap_error_conditions sampleV2Pool 5 true (by decide) (by decide)

-- ══════════════════════════════════════════════════════════════════
-- C10: V2 simulateSwap output bounds.
-- ══════════════════════════════════════════════════════════════════

/-- C10: for a V2 pool with positive reserves (and a fee of at most
100 percent; the adapter always sets 30 bps) and an input amount with
0 < amountIn ≤ reserveIn, simulateSwap succeeds and its output
satisfies 0 ≤ amountOut < reserveOut — a simulated swap can never
drain or exceed the output-side reserve. -/
theorem v2_simulate_output_bounded (pool : DexPoolState) (amountIn : Int) (zeroForOne : Bool)
    (hr0 : 0 < pool.reserve0) (hr1 : 0 < pool.reserve1)
    (hfee : pool.feeBps ≤ 10000)
    (ha : 0 < amountIn)
    (hle : amountIn ≤ (if zeroForOne then pool.reserve0 else pool.reserve1)) :
    ∃ out, UniswapV2.simulateSwap pool amountIn zeroForOne = Except.ok out ∧
      0 ≤ out ∧ out < (if zeroForOne then pool.reserve1 else pool.reserve0) := by
  have hrin : 0 < (if zeroForOne then pool.reserve0 else pool.reserve1) := by
    cases zeroForOne <;> simpa
  have hrout : 0 < (if zeroForOne then pool.reserve1 else pool.reserve0) := by
    cases zeroForOne <;> simpa
  have ha' : ¬ amountIn ≤ 0 := by omega
  have hr : ¬ ((if zeroForOne then pool.reserve0 else pool.reserve1) ≤ 0 ∨
      (if zeroForOne then pool.reserve1 else pool.reserve0) ≤ 0) := by omega
  have hx : ¬ amountIn > (if zeroForOne then pool.reserve0 else pool.reserve1) := by omega
  have hkeep : (0 : Int) ≤ 10000 - (pool.feeBps : Int) := by omega
  have hf : 0 ≤ (amountIn * (10000 - (pool.feeBps : Int))).tdiv 10000 :=
    Int.tdiv_nonneg (Int.mul_nonneg (le_of_lt ha) hkeep) (by omega)
  refine ⟨((amountIn * (10000 - (pool.feeBps : Int))).tdiv 10000 *
      (if zeroForOne then pool.reserve1 else pool.reserve0)).tdiv
      ((if zeroForOne then pool.reserve0 else pool.reserve1) +
        (amountIn * (10000 - (pool.feeBps : Int))).tdiv 10000), ?_, ?_, ?_⟩
  · simp only [UniswapV2.simulateSwap]
    rw [if_neg ha', if_neg hr, if_neg hx]
  · exact Int.tdiv_nonneg
      (Int.mul_nonneg hf (le_of_lt hrout))
      (by omega)
  · have hden : 0 < (if zeroForOne then pool.reserve0 else pool.reserve1) +
        (amountIn * (10000 - (pool.feeBps : Int))).tdiv 10000 := by omega
    have hnum : 0 ≤ (amountIn * (10000 - (pool.feeBps : Int))).tdiv 10000 *
        (if zeroForOne then pool.reserve1 else pool.reserve0) :=
      Int.mul_nonneg hf (le_of_lt hrout)
    rw [Int.tdiv_eq_ediv hnum (le_of_lt hden)]
    apply Int.ediv_lt_of_lt_mul hden
    nlinarith [Int.mul_pos hrout hrin]

/-- C10 witness. -/
theorem v2_simulate_output_bounded_witness :
    ∃ out, UniswapV2.simulateSwap sampleV2Pool 10 true = Except.ok out ∧
      0 ≤ out ∧ out < (if true then sampleV2Pool.reserve1 else sampleV2Pool.reserve0) :=
  v2_simulate_output_bounded sampleV2Pool 10 true (by decide) (by decide) (by decide)
    (by decide) (by decide)

-- ══════════════════════════════════════════════════════════════════
-- C7: iteration bound of the V3 multi-tick swap loop.
-- ══════════════════════════════════════════════════════════════════

theorem swapLoop_iterations_le (tickToSqrt : Int → Int) (ticks : List TickData)
    (feePpm sqrtPriceLimit : Int) (zeroForOne : Bool) :
    ∀ (fuel : Nat) (st : SqrtPriceMath.LoopState),
      SqrtPriceMath.MAX_ITERATIONS - st.iterations ≤ fuel →
      (SqrtPriceMath.swapLoop tickToSqrt ticks feePpm sqrtPriceLimit zeroForOne st).1.iterations ≤
        max st.iterations SqrtPriceMath.MAX_ITERATIONS := by
  intro fuel
  induction fuel with
  | zero =>
    intro st hf
    have hc : ¬ (st.amountRemaining > 0 ∧ st.currentSqrtPrice ≠ sqrtPriceLimit ∧
        st.iterations < SqrtPriceMath.MAX_ITERATIONS) := by
      rintro ⟨-, -, hlt⟩
      omega
    rw [SqrtPriceMath.swapLoop, dif_neg hc]
    exact Nat.le_max_left _ _
  | succ k ih =>
    intro st hf
    by_cases hc : st.amountRemaining > 0 ∧ st.currentSqrtPrice ≠ sqrtPriceLimit ∧
        st.iterations < SqrtPriceMath.MAX_ITERATIONS
    · have hlt : st.iterations < SqrtPriceMath.MAX_ITERATIONS := hc.2.2
      rw [SqrtPriceMath.swapLoop, dif_pos hc]
      dsimp only
      repeat' split
      all_goals
        first
          | (refine Nat.le_trans (ih _ ?_) ?_ <;> (simp <;> omega))
          | (simp <;> omega)
    · rw [SqrtPriceMath.swapLoop, dif_neg hc]
      exact Nat.le_max_left _ _

/-- C7: for every pool state, input amount and direction (and every
value of the float-based tick-to-price conversion), the V3 multi-tick
simulation terminates with its main loop body executed at most 500
times — the embedding is total, and the iteration counter threaded
through the loop never exceeds MAX_ITERATIONS = 500. -/
theorem v3_simulate_iterations_bounded (tickToSqrt : Int → Int)
    (poolState : SqrtPriceMath.PoolState) (amountIn : Int) (zeroForOne : Bool) :
    SqrtPriceMath.simulateSwapIterations tickToSqrt poolState amountIn zeroForOne ≤ 500 := by
  unfold SqrtPriceMath.simulateSwapIterations
  split
  · omega
  · split
    · omega
    · split
      · omega
      · split
        · omega
        · refine Nat.le_trans (swapLoop_iterations_le tickToSqrt _ _ _ zeroForOne 500 _ ?_) ?_
          · simp [SqrtPriceMath.MAX_ITERATIONS]
          · simp [SqrtPriceMath.MAX_ITERATIONS]

-- ══════════════════════════════════════════════════════════════════
-- C9: cache serialization round trip.
-- ══════════════════════════════════════════════════════════════════

theorem charToDigit_digitToChar (d : Nat) (h : d < 10) :
    CacheService.charToDigit (CacheService.digitToChar d) = some d := by
  interval_cases d <;> decide

theorem digitToChar_ne_sign (d : Nat) (h : d < 10) :
    CacheService.digitToChar d ≠ '-' ∧ CacheService.digitToChar d ≠ '+' := by
  interval_cases d <;> exact ⟨by decide, by decide⟩

theorem parseDigits_foldl_digits (l : List Nat) :
    ∀ a : Nat, (∀ d ∈ l, d < 10) →
      List.foldl CacheService.parseDigitsStep (some a) (l.map CacheService.digitToChar) =
        some (l.foldl (fun x d => x * 10 + d) a) := by
  induction l with
  | nil =>
    intro a _
    rfl
  | cons d l ih =>
    intro a h
    have hd : d < 10 := h d (List.mem_cons_self d l)
    have hstep : CacheService.parseDigitsStep (some a) (CacheService.digitToChar d) =
        some (a * 10 + d) := by
      unfold CacheService.parseDigitsStep
      rw [charToDigit_digitToChar d hd]
    simp only [List.map_cons, List.foldl_cons, hstep]
    exact ih _ (fun x hx => h x (List.mem_cons_of_mem _ hx))

theorem natToDigitsRevAux_lt (fuel : Nat) :
    ∀ n : Nat, ∀ d ∈ CacheService.natToDigitsRevAux fuel n, d < 10 := by
  induction fuel with
  | zero =>
    intro n d hd
    simp [CacheService.natToDigitsRevAux] at hd
  | succ k ih =>
    intro n d hd
    unfold CacheService.natToDigitsRevAux at hd
    by_cases hn : n = 0
    · simp [hn] at hd
    · rw [if_neg hn] at hd
      rcases List.mem_cons.mp hd with rfl | hmem
      · exact Nat.mod_lt _ (by norm_num)
      · exact ih _ d hmem

theorem foldl_natToDigitsRevAux (fuel : Nat) :
    ∀ n a : Nat, n ≤ fuel →
      ((CacheService.natToDigitsRevAux fuel n).reverse).foldl (fun x d => x * 10 + d) a =
        a * 10 ^ (CacheService.natToDigitsRevAux fuel n).length + n := by
  induction fuel with
  | zero =>
    intro n a h
    have hn : n = 0 := by omega
    subst hn
    simp [CacheService.natToDigitsRevAux]
  | succ k ih =>
    intro n a h
    unfold CacheService.natToDigitsRevAux
    by_cases hn : n = 0
    · subst hn
      simp
    · rw [if_neg hn, List.reverse_cons, List.foldl_append,
        ih (n / 10) a (by omega), List.length_cons]
      set L := (CacheService.natToDigitsRevAux k (n / 10)).length with hL
      have hdm : n / 10 * 10 + n % 10 = n := by omega
      calc (a * 10 ^ L + n / 10) * 10 + n % 10
          = a * (10 ^ L * 10) + (n / 10 * 10 + n % 10) := by ring
        _ = a * 10 ^ (L + 1) + n := by rw [← pow_succ, hdm]

theorem natToDigitsRevAux_ne_nil (n : Nat) (hn : n ≠ 0) :
    CacheService.natToDigitsRevAux n n ≠ [] := by
  cases n with
  | zero => exact absurd rfl hn
  | succ m =>
    unfold CacheService.natToDigitsRevAux
    simp

theorem natToString_data (n : Nat) (hn : n ≠ 0) :
    (CacheService.natToString n).data =
      (CacheService.natToDigitsRev n).reverse.map CacheService.digitToChar := by
  unfold CacheService.natToString
  rw [if_neg hn]

theorem parseDigits_natToDigits (n : Nat) :
    CacheService.parseDigits
        ((CacheService.natToDigitsRev n).reverse.map CacheService.digitToChar) = some n := by
  unfold CacheService.parseDigits CacheService.natToDigitsRev
  rw [parseDigits_foldl_digits _ 0
    (fun d hd => natToDigitsRevAux_lt n n d (List.mem_reverse.mp hd))]
  rw [foldl_natToDigitsRevAux n n 0 (Nat.le_refl n)]
  simp

theorem parseBigInt_natToString (n : Nat) (hn : n ≠ 0) :
    CacheService.parseBigInt (CacheService.natToString n) = some (n : Int) := by
  obtain ⟨d, ds, hds⟩ : ∃ d ds, (CacheService.natToDigitsRev n).reverse = d :: ds := by
    cases hrev : (CacheService.natToDigitsRev n).reverse with
    | nil =>
      exact absurd (List.reverse_eq_nil_iff.mp hrev) (natToDigitsRevAux_ne_nil n hn)
    | cons d ds => exact ⟨d, ds, rfl⟩
  have hd10 : d < 10 :=
    natToDigitsRevAux_lt n n d (List.mem_reverse.mp (hds ▸ List.mem_cons_self d ds))
  have hsign := digitToChar_ne_sign d hd10
  unfold CacheService.parseBigInt
  rw [natToString_data n hn, hds, List.map_cons]
  rw [CacheService.parseBigIntChars]
  rw [if_neg hsign.1, if_neg hsign.2]
  rw [← List.map_cons, ← hds, parseDigits_natToDigits n]
  rfl

theorem parseBigInt_bigintToString (n : Int) :
    CacheService.parseBigInt (CacheService.bigintToString n) = some n := by
  unfold CacheService.bigintToString
  by_cases hneg : n < 0
  · rw [if_pos hneg]
    have hna : n.natAbs ≠ 0 := by omega
    have hdata : ("-" ++ CacheService.natToString n.natAbs).data =
        '-' :: (CacheService.natToString n.natAbs).data := rfl
    obtain ⟨d, ds, hds⟩ : ∃ d ds, (CacheService.natToDigitsRev n.natAbs).reverse = d :: ds := by
      cases hrev : (CacheService.natToDigitsRev n.natAbs).reverse with
      | nil =>
        exact absurd (List.reverse_eq_nil_iff.mp hrev) (natToDigitsRevAux_ne_nil _ hna)
      | cons d ds => exact ⟨d, ds, rfl⟩
    unfold CacheService.parseBigInt
    rw [hdata, natToString_data _ hna, hds, List.map_cons]
    rw [CacheService.parseBigIntChars]
    rw [if_pos rfl]
    rw [if_neg (by simp)]
    rw [← List.map_cons, ← hds, parseDigits_natToDigits n.natAbs]
    show some (-((n.natAbs : Nat) : Int)) = some n
    congr 1
    omega
  · rw [if_neg hneg]
    by_cases h0 : n.natAbs = 0
    · have hz : n = 0 := by omega
      subst hz
      decide
    · rw [parseBigInt_natToString _ h0]
      congr 1
      omega

theorem deserializeList_roundtrip (xs : List CacheService.Json)
    (ih : ∀ x ∈ xs,
      (CacheService.deserializeValue x).map CacheService.serializeValue = Except.ok x) :
    (CacheService.deserializeList xs).map CacheService.serializeList = Except.ok xs := by
  induction xs with
  | nil => rfl
  | cons x xs ihl =>
    have hx := ih x (List.mem_cons_self x xs)
    obtain ⟨y, hy1, hy2⟩ : ∃ y, CacheService.deserializeValue x = Except.ok y ∧
        CacheService.serializeValue y = x := by
      cases hdv : CacheService.deserializeValue x with
      | error e =>
        rw [hdv] at hx
        simp [Except.map] at hx
      | ok y =>
        rw [hdv] at hx
        simp [Except.map] at hx
        exact ⟨y, rfl, hx⟩
    have hrest := ihl (fun z hz => ih z (List.mem_cons_of_mem x hz))
    obtain ⟨ys, hys1, hys2⟩ : ∃ ys, CacheService.deserializeList xs = Except.ok ys ∧
        CacheService.serializeList ys = xs := by
      cases hdl : CacheService.deserializeList xs with
      | error e =>
        rw [hdl] at hrest
        simp [Except.map] at hrest
      | ok ys =>
        rw [hdl] at hrest
        simp [Except.map] at hrest
        exact ⟨ys, rfl, hrest⟩
    unfold CacheService.deserializeList
    rw [hy1, hys1]
    simp [Except.map, CacheService.serializeList, hy2, hys2]

theorem deserializeFields_roundtrip (fields : List (String × CacheService.Json))
    (ih : ∀ kv ∈ fields,
      (CacheService.deserializeValue kv.2).map CacheService.serializeValue = Except.ok kv.2) :
    (CacheService.deserializeFields fields).map CacheService.serializeFields =
      Except.ok fields := by
  induction fields with
  | nil => rfl
  | cons kv rest ihl =>
    obtain ⟨k, v⟩ := kv
    have hx := ih (k, v) (List.mem_cons_self (k, v) rest)
    obtain ⟨w, hw1, hw2⟩ : ∃ w, CacheService.deserializeValue v = Except.ok w ∧
        CacheService.serializeValue w = v := by
      cases hdv : CacheService.deserializeValue v with
      | error e =>
        rw [hdv] at hx
        simp [Except.map] at hx
      | ok w =>
        rw [hdv] at hx
        simp [Except.map] at hx
        exact ⟨w, rfl, hx⟩
    have hrest := ihl (fun z hz => ih z (List.mem_cons_of_mem (k, v) hz))
    obtain ⟨ws, hws1, hws2⟩ : ∃ ws, CacheService.deserializeFields rest = Except.ok ws ∧
        CacheService.serializeFields ws = rest := by
      cases hdl : CacheService.deserializeFields rest with
      | error e =>
        rw [hdl] at hrest
        simp [Except.map] at hrest
      | ok ws =>
        rw [hdl] at hrest
        simp [Except.map] at hrest
        exact ⟨ws, rfl, hrest⟩
    unfold CacheService.deserializeFields
    rw [hw1, hws1]
    simp [Except.map, CacheService.serializeFields, hw2, hws2]

/-- C9: for every well-formed stored cache value — nested objects and
arrays included, with big integers encoded as the canonical
two-field marker object — deserializing and serializing again
reproduces the stored value exactly. -/
theorem cache_serialize_roundtrip (x : CacheService.Json) (h : CacheService.Storable x) :
    (CacheService.deserializeValue x).map CacheService.serializeValue = Except.ok x := by
  induction h with
  | jnull => rfl
  | jbool b => rfl
  | jnum q => rfl
  | jstr s => rfl
  | jarr xs hmem ih =>
    have hl := deserializeList_roundtrip xs ih
    obtain ⟨ys, h1, h2⟩ : ∃ ys, CacheService.deserializeList xs = Except.ok ys ∧
        CacheService.serializeList ys = xs := by
      cases hdl : CacheService.deserializeList xs with
      | error e =>
        rw [hdl] at hl
        simp [Except.map] at hl
      | ok ys =>
        rw [hdl] at hl
        simp [Except.map] at hl
        exact ⟨ys, rfl, hl⟩
    simp [CacheService.deserializeValue, h1, Except.map, CacheService.serializeValue, h2]
  | jobjMarker n =>
    simp [CacheService.deserializeValue, CacheService.isBigintTag, alookup,
      parseBigInt_bigintToString n, Except.map, CacheService.serializeValue]
  | jobj fields hmark hmem ih =>
    have hf := deserializeFields_roundtrip fields ih
    obtain ⟨fs, h1, h2⟩ : ∃ fs, CacheService.deserializeFields fields = Except.ok fs ∧
        CacheService.serializeFields fs = fields := by
      cases hdl : CacheService.deserializeFields fields with
      | error e =>
        rw [hdl] at hf
        simp [Except.map] at hf
      | ok fs =>
        rw [hdl] at hf
        simp [Except.map] at hf
        exact ⟨fs, rfl, hf⟩
    simp [CacheService.deserializeValue, hmark, h1, Except.map,
      CacheService.serializeValue, h2]

/-- C9 witness. -/
theorem cache_serialize_roundtrip_witness :
    (CacheService.deserializeValue sampleStoredJson).map CacheService.serializeValue =
      Except.ok sampleStoredJson :=
  cache_serialize_roundtrip sampleStoredJson
    (by
      refine CacheService.Storable.jobj _ rfl ?_
      intro kv hkv
      simp only [List.mem_cons, List.mem_singleton] at hkv
      rcases hkv with rfl | rfl | h
      · exact CacheService.Storable.jnum 1
      · refine CacheService.Storable.jarr _ ?_
        intro x hx
        simp only [List.mem_cons, List.mem_singleton] at hx
        rcases hx with rfl | rfl | h
        · exact CacheService.Storable.jobjMarker 123456789
        · exact CacheService.Storable.jnull
        · cases h
      · cases h)
